import Mathlib

/-
Verification of the amqp-message-bus MessageBus class (src/MessageBus.js),
shallowly embedded in Lean 4.  JavaScript runtime values relevant to the
class's lodash-based validation are modelled by the inductive JSValue;
the mutable fields of a MessageBus instance by the structure BusState;
each async method becomes a pure function from the current state, its
arguments and an oracle of broker outcomes to a result, the next state
and the ordered list of broker-level calls it issued.
-/

namespace AmqpBus

/-- Model of the JavaScript values that the class's validation layer
distinguishes.  Non-integer numbers are collapsed into one constructor
(numNonInt) because the code only ever tests them with lodash isInteger;
array contents are likewise irrelevant to every check performed. -/
inductive JSValue where
  | undef
  | jsNull
  | bool (b : Bool)
  | num (n : Int)
  | numNonInt
  | str (s : String)
  | arrV
  | obj (fields : List (String × JSValue))
  | func
deriving Repr

/-- The typeof npm package used for error messages: returns the lowercase
kind name, distinguishing null and array from object. -/
def typeOf : JSValue → String
  | .undef => "undefined"
  | .jsNull => "null"
  | .bool _ => "boolean"
  | .num _ => "number"
  | .numNonInt => "number"
  | .str _ => "string"
  | .arrV => "array"
  | .obj _ => "object"
  | .func => "function"

/-- lodash isString. -/
def isStringJS : JSValue → Bool
  | .str _ => true
  | _ => false

/-- lodash isUndefined. -/
def isUndefinedJS : JSValue → Bool
  | .undef => true
  | _ => false

/-- lodash isNull. -/
def isNullJS : JSValue → Bool
  | .jsNull => true
  | _ => false

/-- lodash isFunction. -/
def isFunctionJS : JSValue → Bool
  | .func => true
  | _ => false

/-- lodash isPlainObject: true exactly for plain objects (not arrays,
not null, not functions). -/
def isPlainObjectJS : JSValue → Bool
  | .obj _ => true
  | _ => false

/-- lodash isInteger: true exactly for integer numbers. -/
def isIntegerJS : JSValue → Bool
  | .num _ => true
  | _ => false

/-- Property access on an object literal; absent keys read as undefined. -/
def getProp : List (String × JSValue) → String → JSValue
  | [], _ => .undef
  | (k, v) :: rest, key => if k = key then v else getProp rest key

/-- Destructuring default: the default applies exactly when the property
value is undefined. -/
def withDefault (v d : JSValue) : JSValue :=
  match v with
  | .undef => d
  | w => w

/-- Underlying string of a string value (total helper; only applied after
an isStringJS check succeeds). -/
def stringOf : JSValue → String
  | .str s => s
  | _ => ""

/-- Underlying integer of an integer number value (total helper; only
applied after an isIntegerJS check succeeds). -/
def intOf : JSValue → Int
  | .num n => n
  | _ => 0

/-- Field list of an object value (total helper). -/
def fieldsOf : JSValue → List (String × JSValue)
  | .obj fs => fs
  | _ => []

/-- Errors thrown or rejected by the class: TypeError with message,
plain Error with message, or an error originating from the amqplib
broker layer. -/
inductive JSError where
  | typeError (msg : String)
  | jsError (msg : String)
  | brokerError
deriving Repr, DecidableEq

/-- Broker-level calls the class issues through amqplib, in the order
they are awaited.  publishCall / sendToQueueCall record the submitted
envelope (content is the raw message value; its wire encoding is the
codec modelled separately below). -/
inductive BrokerCall where
  | amqpConnect (url : String)
  | createChannel
  | createConfirmChannel
  | prefetchCall (n : Nat)
  | closeConn
  | consumeCall (queue tag : String)
  | cancelCall (tag : String)
  | publishCall (exchange routingKey : String) (content : JSValue)
      (messageId : String) (type : JSValue) (priority : Int) (timestamp : Int)
  | sendToQueueCall (queue : String) (content : JSValue)
      (messageId : String) (type : JSValue) (priority : Int) (timestamp : Int)
  | deleteQueueCall (queue : String)
deriving Repr

/-- The mutable fields of a MessageBus instance.  Connection and channel
handles only matter as null / non-null, so they are Option Unit.  The
consumers Map is an insertion-ordered association list.  consumerTag
models the instance field read by subscribe's "Subscription already
active" guard; the constructor leaves it undefined (none). -/
structure BusState where
  url : String
  encryptionKey : Option String
  consumers : List (String × String)
  conn : Option Unit
  incomingChannel : Option Unit
  outgoingChannel : Option Unit
  consumerTag : Option String
deriving Repr

/-- Map.prototype.has on the consumers registry. -/
def mapHas (m : List (String × String)) (k : String) : Bool :=
  m.any (fun p => p.1 = k)

/-- Map.prototype.set on the consumers registry: replaces in place when
the key exists, appends otherwise. -/
def mapSet (m : List (String × String)) (k v : String) : List (String × String) :=
  if m.any (fun p => p.1 = k) then
    m.map (fun p => if p.1 = k then (k, v) else p)
  else
    m ++ [(k, v)]

/-- Map.prototype.delete on the consumers registry. -/
def mapDelete (m : List (String × String)) (k : String) : List (String × String) :=
  m.filter (fun p => ¬ p.1 = k)

/-- Result of one async method call: its settled outcome, the bus state
after the call, and the broker calls it issued in order. -/
structure OpResult (α : Type) where
  res : Except JSError α
  state : BusState
  calls : List BrokerCall

/-- JavaScript truthiness of the consumerTag field (undefined/null and
the empty string are falsy). -/
def truthyTag : Option String → Bool
  | none => false
  | some t => ¬ t = ""

/-- The constructor: validates props is a plain object, url a string and
encryptionKey a string or null (defaulting to null), then initialises
consumers to an empty Map and the connection/channel handles to null.
It never assigns the consumerTag field, which therefore stays undefined. -/
def construct (props : JSValue) : Except JSError BusState :=
  if ¬ isPlainObjectJS props then
    .error (.typeError ("Invalid props; expected plain object, received " ++ typeOf props))
  else if ¬ isStringJS (getProp (fieldsOf props) "url") then
    .error (.typeError ("Invalid url property; expected string, received "
      ++ typeOf (getProp (fieldsOf props) "url")))
  else if ¬ (isStringJS (withDefault (getProp (fieldsOf props) "encryptionKey") .jsNull)
      || isNullJS (withDefault (getProp (fieldsOf props) "encryptionKey") .jsNull)) then
    .error (.typeError ("Invalid encryptionKey property; expected string, received "
      ++ typeOf (withDefault (getProp (fieldsOf props) "encryptionKey") .jsNull)))
  else
    .ok { url := stringOf (getProp (fieldsOf props) "url")
        , encryptionKey :=
            match withDefault (getProp (fieldsOf props) "encryptionKey") .jsNull with
            | .str k => some k
            | _ => none
        , consumers := []
        , conn := none
        , incomingChannel := none
        , outgoingChannel := none
        , consumerTag := none }

/-- Outcomes of the four awaited broker steps inside connect. -/
structure ConnOracle where
  connectOk : Bool
  channelOk : Bool
  confirmChannelOk : Bool
  prefetchOk : Bool

/-- connect(): exits at once when a connection handle is already present;
otherwise awaits amqp.connect (assigning conn only on success), then
createChannel, createConfirmChannel and prefetch(1), assigning each
handle as the corresponding await succeeds.  A failing await rejects
with the broker error, leaving the assignments made so far in place. -/
def connect (s : BusState) (o : ConnOracle) : OpResult Unit :=
  if s.conn.isSome then
    ⟨.ok (), s, []⟩
  else if ¬ o.connectOk then
    ⟨.error .brokerError, s, [.amqpConnect s.url]⟩
  else
    let s1 := { s with conn := some () }
    if ¬ o.channelOk then
      ⟨.error .brokerError, s1, [.amqpConnect s.url, .createChannel]⟩
    else
      let s2 := { s1 with incomingChannel := some () }
      if ¬ o.confirmChannelOk then
        ⟨.error .brokerError, s2,
          [.amqpConnect s.url, .createChannel, .createConfirmChannel]⟩
      else
        let s3 := { s2 with outgoingChannel := some () }
        if ¬ o.prefetchOk then
          ⟨.error .brokerError, s3,
            [.amqpConnect s.url, .createChannel, .createConfirmChannel, .prefetchCall 1]⟩
        else
          ⟨.ok (), s3,
            [.amqpConnect s.url, .createChannel, .createConfirmChannel, .prefetchCall 1]⟩

/-- The first two statements of reconnect(), run on the connection's
close event: detach listeners and null out the connection handle so a
later connect() does not exit prematurely.  The channel handles are not
touched.  The retry loop that follows simply re-runs connect(). -/
def reconnectClear (s : BusState) : BusState :=
  { s with conn := none }

/-- unsubscribe(consumerTag): validates the tag is a string and known,
awaits channel.cancel (whose failure rejects without touching the
registry), then deletes the tag from the registry. -/
def unsubscribe (s : BusState) (consumerTag : JSValue) (cancelOk : String → Bool) :
    OpResult Unit :=
  if ¬ isStringJS consumerTag then
    ⟨.error (.typeError ("Invalid consumerTag; expected string, received " ++ typeOf consumerTag)), s, []⟩
  else if ¬ mapHas s.consumers (stringOf consumerTag) then
    ⟨.error (.jsError ("Unknown consumer tag " ++ stringOf consumerTag)), s, []⟩
  else if cancelOk (stringOf consumerTag) then
    ⟨.ok (), { s with consumers := mapDelete s.consumers (stringOf consumerTag) },
      [.cancelCall (stringOf consumerTag)]⟩
  else
    ⟨.error .brokerError, s, [.cancelCall (stringOf consumerTag)]⟩

/-- Drain of a list of consumer tags through unsubscribe, as performed
by Promise.all in disconnect() and deleteQueue(); each unsubscribe
touches a distinct registry key, so the concurrent join is modelled by
the sequential fold.  Returns whether every unsubscribe succeeded. -/
def drainAll (s : BusState) (tags : List String) (cancelOk : String → Bool) :
    Bool × BusState × List BrokerCall :=
  match tags with
  | [] => (true, s, [])
  | t :: rest =>
    let r := unsubscribe s (.str t) cancelOk
    let rec' := drainAll r.state rest cancelOk
    ((match r.res with | .ok _ => true | .error _ => false) && rec'.1,
      rec'.2.1, r.calls ++ rec'.2.2)

/-- disconnect(): exits at once when no connection handle is present;
otherwise unsubscribes every registered consumer (Promise.all over the
current keys), then closes the connection and resets the connection and
both channel handles to null.  A failed unsubscribe or close rejects
before the resets happen. -/
def disconnect (s : BusState) (cancelOk : String → Bool) (closeOk : Bool) :
    OpResult Unit :=
  if s.conn.isNone then
    ⟨.ok (), s, []⟩
  else if ¬ (drainAll s (s.consumers.map Prod.fst) cancelOk).1 then
    ⟨.error .brokerError, (drainAll s (s.consumers.map Prod.fst) cancelOk).2.1,
      (drainAll s (s.consumers.map Prod.fst) cancelOk).2.2⟩
  else if ¬ closeOk then
    ⟨.error .brokerError, (drainAll s (s.consumers.map Prod.fst) cancelOk).2.1,
      (drainAll s (s.consumers.map Prod.fst) cancelOk).2.2 ++ [.closeConn]⟩
  else
    ⟨.ok (), { (drainAll s (s.consumers.map Prod.fst) cancelOk).2.1 with
        conn := none, incomingChannel := none, outgoingChannel := none },
      (drainAll s (s.consumers.map Prod.fst) cancelOk).2.2 ++ [.closeConn]⟩

/-- subscribe(queue, listener): validates queue with lodash isString
(an empty string passes) and listener with isFunction, requires an open
connection, rejects when the instance consumerTag field is truthy, then
awaits channel.consume under a fresh uuid tag.  The try/finally adds the
tag→queue mapping to the registry whether or not consume succeeded; on
success the call resolves to the bound unsubscribe handle (modelled by
the tag it is bound to), on failure the broker error propagates. -/
def subscribe (s : BusState) (queue listener : JSValue) (freshTag : String)
    (consumeOk : Bool) : OpResult String :=
  if ¬ isStringJS queue then
    ⟨.error (.typeError ("Invalid queue; expected string, received " ++ typeOf queue)), s, []⟩
  else if ¬ isFunctionJS listener then
    ⟨.error (.typeError ("Invalid listener; expected function, received " ++ typeOf listener)), s, []⟩
  else if ¬ s.conn.isSome then
    ⟨.error (.jsError "Cannot subscribe to queue; did you forget to call #connect()"), s, []⟩
  else if truthyTag s.consumerTag then
    ⟨.error (.jsError "Subscription already active; cannot open multiple subscriptions to the same message bus"), s, []⟩
  else
    let q := stringOf queue
    let s' := { s with consumers := mapSet s.consumers freshTag q }
    if consumeOk then
      ⟨.ok freshTag, s', [.consumeCall q freshTag]⟩
    else
      ⟨.error .brokerError, s', [.consumeCall q freshTag]⟩

/-- Settlement of the promise returned by publish / sendToQueue. -/
inductive Settled where
  | resolvedUndefined
  | rejected (e : JSError)
deriving Repr, DecidableEq

/-- The confirm callback passed to channel.publish / channel.sendToQueue.
amqplib invokes it with the broker's confirm outcome (an error on nack,
nothing on ack); the source callback is () => resolve(), which ignores
that argument and resolves the promise unconditionally. -/
def confirmCallback (_err : Option JSError) : Settled :=
  .resolvedUndefined

/-- lodash inRange(n, 1, 11) as applied to the priority property. -/
def inRange1to11 (n : Int) : Bool :=
  1 ≤ n ∧ n < 11

/-- publish(exchange, routingKey, message, props): validates the
arguments and the recognized props (priority defaulting to 1, messageId
to a fresh uuid, timestamp to the current time), requires an open
connection, then submits the envelope through the confirm channel; the
returned promise settles when the broker invokes the confirm callback
on the submitted publish. -/
def publish (s : BusState) (exchange routingKey message props : JSValue)
    (freshId : String) (now : Int) (confirmErr : Option JSError) : OpResult Unit :=
  if ¬ isStringJS exchange then
    ⟨.error (.typeError ("Invalid exchange; expected string, received " ++ typeOf exchange)), s, []⟩
  else if ¬ isStringJS routingKey then
    ⟨.error (.typeError ("Invalid routingKey; expected string, received " ++ typeOf routingKey)), s, []⟩
  else if isUndefinedJS message then
    ⟨.error (.typeError "Invalid message; must be specified"), s, []⟩
  else if ¬ isPlainObjectJS props then
    ⟨.error (.typeError ("Invalid props; expected plain object, received " ++ typeOf props)), s, []⟩
  else if ¬ isIntegerJS (withDefault (getProp (fieldsOf props) "priority") (.num 1)) then
    ⟨.error (.typeError ("Invalid \"priority\" property; expected integer, received "
      ++ typeOf (withDefault (getProp (fieldsOf props) "priority") (.num 1)))), s, []⟩
  else if ¬ inRange1to11 (intOf (withDefault (getProp (fieldsOf props) "priority") (.num 1))) then
    ⟨.error (.typeError "Invalid \"priority\" property; must be between 1 and 10"), s, []⟩
  else if ¬ isStringJS (withDefault (getProp (fieldsOf props) "messageId") (.str freshId)) then
    ⟨.error (.typeError ("Invalid \"messageId\" property; expected string, received "
      ++ typeOf (withDefault (getProp (fieldsOf props) "messageId") (.str freshId)))), s, []⟩
  else if ¬ (isStringJS (getProp (fieldsOf props) "type")
      || isUndefinedJS (getProp (fieldsOf props) "type")) then
    ⟨.error (.typeError ("Invalid \"type\" property; expected string, received "
      ++ typeOf (getProp (fieldsOf props) "type"))), s, []⟩
  else if ¬ isIntegerJS (withDefault (getProp (fieldsOf props) "timestamp") (.num now)) then
    ⟨.error (.typeError ("Invalid \"timestamp\" property; expected integer, received "
      ++ typeOf (withDefault (getProp (fieldsOf props) "timestamp") (.num now)))), s, []⟩
  else if ¬ s.conn.isSome then
    ⟨.error (.jsError "Cannot publish to exchange; did you forget to call #connect()"), s, []⟩
  else
    match confirmCallback confirmErr with
    | .resolvedUndefined =>
        ⟨.ok (), s, [BrokerCall.publishCall (stringOf exchange) (stringOf routingKey)
          message (stringOf (withDefault (getProp (fieldsOf props) "messageId") (.str freshId)))
          (getProp (fieldsOf props) "type")
          (intOf (withDefault (getProp (fieldsOf props) "priority") (.num 1)))
          (intOf (withDefault (getProp (fieldsOf props) "timestamp") (.num now)))]⟩
    | .rejected e =>
        ⟨.error e, s, [BrokerCall.publishCall (stringOf exchange) (stringOf routingKey)
          message (stringOf (withDefault (getProp (fieldsOf props) "messageId") (.str freshId)))
          (getProp (fieldsOf props) "type")
          (intOf (withDefault (getProp (fieldsOf props) "priority") (.num 1)))
          (intOf (withDefault (getProp (fieldsOf props) "timestamp") (.num now)))]⟩

/-- sendToQueue(queue, message, props): same validation and confirm
protocol as publish, addressed to a queue instead of an exchange. -/
def sendToQueue (s : BusState) (queue message props : JSValue)
    (freshId : String) (now : Int) (confirmErr : Option JSError) : OpResult Unit :=
  if ¬ isStringJS queue then
    ⟨.error (.typeError ("Invalid queue; expected string, received " ++ typeOf queue)), s, []⟩
  else if isUndefinedJS message then
    ⟨.error (.typeError "Invalid message; must be specified"), s, []⟩
  else if ¬ isPlainObjectJS props then
    ⟨.error (.typeError ("Invalid props; expected plain object, received " ++ typeOf props)), s, []⟩
  else if ¬ isIntegerJS (withDefault (getProp (fieldsOf props) "priority") (.num 1)) then
    ⟨.error (.typeError ("Invalid \"priority\" property; expected integer, received "
      ++ typeOf (withDefault (getProp (fieldsOf props) "priority") (.num 1)))), s, []⟩
  else if ¬ inRange1to11 (intOf (withDefault (getProp (fieldsOf props) "priority") (.num 1))) then
    ⟨.error (.typeError "Invalid \"priority\" property; must be between 1 and 10"), s, []⟩
  else if ¬ isStringJS (withDefault (getProp (fieldsOf props) "messageId") (.str freshId)) then
    ⟨.error (.typeError ("Invalid \"messageId\" property; expected string, received "
      ++ typeOf (withDefault (getProp (fieldsOf props) "messageId") (.str freshId)))), s, []⟩
  else if ¬ (isStringJS (getProp (fieldsOf props) "type")
      || isUndefinedJS (getProp (fieldsOf props) "type")) then
    ⟨.error (.typeError ("Invalid \"type\" property; expected string, received "
      ++ typeOf (getProp (fieldsOf props) "type"))), s, []⟩
  else if ¬ isIntegerJS (withDefault (getProp (fieldsOf props) "timestamp") (.num now)) then
    ⟨.error (.typeError ("Invalid \"timestamp\" property; expected integer, received "
      ++ typeOf (withDefault (getProp (fieldsOf props) "timestamp") (.num now)))), s, []⟩
  else if ¬ s.conn.isSome then
    ⟨.error (.jsError "Cannot send to queue; did you forget to call #connect()"), s, []⟩
  else
    match confirmCallback confirmErr with
    | .resolvedUndefined =>
        ⟨.ok (), s, [BrokerCall.sendToQueueCall (stringOf queue)
          message (stringOf (withDefault (getProp (fieldsOf props) "messageId") (.str freshId)))
          (getProp (fieldsOf props) "type")
          (intOf (withDefault (getProp (fieldsOf props) "priority") (.num 1)))
          (intOf (withDefault (getProp (fieldsOf props) "timestamp") (.num now)))]⟩
    | .rejected e =>
        ⟨.error e, s, [BrokerCall.sendToQueueCall (stringOf queue)
          message (stringOf (withDefault (getProp (fieldsOf props) "messageId") (.str freshId)))
          (getProp (fieldsOf props) "type")
          (intOf (withDefault (getProp (fieldsOf props) "priority") (.num 1)))
          (intOf (withDefault (getProp (fieldsOf props) "timestamp") (.num now)))]⟩

/-- deleteQueue(queue, options): validates its arguments, requires an
open connection, drains every consumer registration bound to the given
queue through unsubscribe (Promise.all), and only then issues the
broker-level queue delete. -/
def deleteQueue (s : BusState) (queue options : JSValue)
    (cancelOk : String → Bool) (delOk : Bool) : OpResult Unit :=
  if ¬ isStringJS queue then
    ⟨.error (.typeError ("Invalid queue; expected string, received " ++ typeOf queue)), s, []⟩
  else if ¬ isPlainObjectJS options then
    ⟨.error (.typeError ("Invalid options; expected plain object, received " ++ typeOf options)), s, []⟩
  else if ¬ s.conn.isSome then
    ⟨.error (.jsError "Cannot delete queue; did you forget to call #connect()"), s, []⟩
  else if ¬ (drainAll s ((s.consumers.filter (fun p => p.2 = stringOf queue)).map Prod.fst)
      cancelOk).1 then
    ⟨.error .brokerError,
      (drainAll s ((s.consumers.filter (fun p => p.2 = stringOf queue)).map Prod.fst)
        cancelOk).2.1,
      (drainAll s ((s.consumers.filter (fun p => p.2 = stringOf queue)).map Prod.fst)
        cancelOk).2.2⟩
  else if delOk then
    ⟨.ok (),
      (drainAll s ((s.consumers.filter (fun p => p.2 = stringOf queue)).map Prod.fst)
        cancelOk).2.1,
      (drainAll s ((s.consumers.filter (fun p => p.2 = stringOf queue)).map Prod.fst)
        cancelOk).2.2 ++ [.deleteQueueCall (stringOf queue)]⟩
  else
    ⟨.error .brokerError,
      (drainAll s ((s.consumers.filter (fun p => p.2 = stringOf queue)).map Prod.fst)
        cancelOk).2.1,
      (drainAll s ((s.consumers.filter (fun p => p.2 = stringOf queue)).map Prod.fst)
        cancelOk).2.2 ++ [.deleteQueueCall (stringOf queue)]⟩

/-- One public operation of the class taking the bus from one state to
the next (any arguments, any broker outcomes).  reconnectStep fires only
from a state with a live connection handle, since the close event that
triggers reconnect() is raised by that connection. -/
inductive Step : BusState → BusState → Prop where
  | connectStep (s : BusState) (o : ConnOracle) : Step s (connect s o).state
  | disconnectStep (s : BusState) (c : String → Bool) (ok : Bool) :
      Step s (disconnect s c ok).state
  | subscribeStep (s : BusState) (q l : JSValue) (tag : String) (ok : Bool) :
      Step s (subscribe s q l tag ok).state
  | unsubscribeStep (s : BusState) (t : JSValue) (c : String → Bool) :
      Step s (unsubscribe s t c).state
  | deleteQueueStep (s : BusState) (q o : JSValue) (c : String → Bool) (ok : Bool) :
      Step s (deleteQueue s q o c ok).state
  | publishStep (s : BusState) (e r m p : JSValue) (fid : String) (now : Int)
      (ce : Option JSError) : Step s (publish s e r m p fid now ce).state
  | sendToQueueStep (s : BusState) (q m p : JSValue) (fid : String) (now : Int)
      (ce : Option JSError) : Step s (sendToQueue s q m p fid now ce).state
  | reconnectStep (s : BusState) (h : s.conn.isSome) : Step s (reconnectClear s)

/-- States reachable at the boundaries of the public operations,
starting from a successfully constructed instance. -/
inductive Reachable : BusState → Prop where
  | init (props : JSValue) (s : BusState) (h : construct props = .ok s) : Reachable s
  | step {s s' : BusState} (hr : Reachable s) (hs : Step s s') : Reachable s'

/-- JSON-serializable payloads handled by the envelope codec.  Numbers
are modelled as integers (IEEE floating point is outside the embedding). -/
inductive Json where
  | null
  | bool (b : Bool)
  | num (n : Int)
  | str (s : String)
  | arr (elems : List Json)
  | obj (fields : List (String × Json))
deriving Repr

/-- Opening brace character. -/
def obraceChar : Char := Char.ofNat 123

/-- Closing brace character. -/
def cbraceChar : Char := Char.ofNat 125

/-- Lowercase hexadecimal digit. -/
def hexDigitChar (n : Nat) : Char :=
  if n < 10 then Char.ofNat (48 + n) else Char.ofNat (87 + n)

/-- JSON.stringify escaping of one string character: quote, backslash
and the named control shortcuts get a backslash escape, the remaining
control characters a lowercase unicode escape, everything else passes
through. -/
def escapeChar (c : Char) : String :=
  if c = '"' then "\\\""
  else if c = '\\' then "\\\\"
  else if c = Char.ofNat 8 then "\\b"
  else if c = '\t' then "\\t"
  else if c = '\n' then "\\n"
  else if c = Char.ofNat 12 then "\\f"
  else if c = '\r' then "\\r"
  else if c.toNat < 32 then
    "\\u00" ++ String.mk [hexDigitChar (c.toNat / 16), hexDigitChar (c.toNat % 16)]
  else String.singleton c

/-- JSON string literal for s, in double quotes with escapes. -/
def escapeString (s : String) : String :=
  "\"" ++ String.join (s.toList.map escapeChar) ++ "\""

mutual

/-- Model of JSON.stringify on the payloads above. -/
def jsonStringify : Json → String
  | .null => "null"
  | .bool true => "true"
  | .bool false => "false"
  | .num n => toString n
  | .str s => escapeString s
  | .arr xs => "[" ++ stringifyElems xs ++ "]"
  | .obj fs => "\x7b" ++ stringifyFields fs ++ "\x7d"

/-- Comma-separated serialization of array elements. -/
def stringifyElems : List Json → String
  | [] => ""
  | [x] => jsonStringify x
  | x :: y :: rest => jsonStringify x ++ "," ++ stringifyElems (y :: rest)

/-- Comma-separated serialization of object fields. -/
def stringifyFields : List (String × Json) → String
  | [] => ""
  | [(k, v)] => escapeString k ++ ":" ++ jsonStringify v
  | (k, v) :: y :: rest =>
      escapeString k ++ ":" ++ jsonStringify v ++ "," ++ stringifyFields (y :: rest)

end

/-- Whitespace skipping for the JSON reader. -/
def skipWs : List Char → List Char
  | [] => []
  | c :: rest =>
      if c = ' ' ∨ c = '\n' ∨ c = '\t' ∨ c = '\r' then skipWs rest else c :: rest

/-- Value of one hexadecimal digit character. -/
def hexVal (c : Char) : Option Nat :=
  if '0' ≤ c ∧ c ≤ '9' then some (c.toNat - 48)
  else if 'a' ≤ c ∧ c ≤ 'f' then some (c.toNat - 87)
  else if 'A' ≤ c ∧ c ≤ 'F' then some (c.toNat - 55)
  else none

/-- Numeric value of a digit run. -/
def digitsToNat (ds : List Char) : Nat :=
  ds.foldl (fun acc c => acc * 10 + (c.toNat - 48)) 0

/-- Reader for the body of a JSON string literal (after the opening
quote): collects characters up to the closing quote, decoding escapes. -/
def readStrBody : Nat → List Char → Option (List Char × List Char)
  | 0, _ => none
  | _, [] => none
  | fuel + 1, c :: rest =>
    if c = '"' then some ([], rest)
    else if c = '\\' then
      match rest with
      | [] => none
      | e :: rest2 =>
        if e = '"' then (readStrBody fuel rest2).map (fun p => ('"' :: p.1, p.2))
        else if e = '\\' then (readStrBody fuel rest2).map (fun p => ('\\' :: p.1, p.2))
        else if e = '/' then (readStrBody fuel rest2).map (fun p => ('/' :: p.1, p.2))
        else if e = 'b' then (readStrBody fuel rest2).map (fun p => (Char.ofNat 8 :: p.1, p.2))
        else if e = 'f' then (readStrBody fuel rest2).map (fun p => (Char.ofNat 12 :: p.1, p.2))
        else if e = 'n' then (readStrBody fuel rest2).map (fun p => ('\n' :: p.1, p.2))
        else if e = 'r' then (readStrBody fuel rest2).map (fun p => ('\r' :: p.1, p.2))
        else if e = 't' then (readStrBody fuel rest2).map (fun p => ('\t' :: p.1, p.2))
        else if e = 'u' then
          match rest2 with
          | h1 :: h2 :: h3 :: h4 :: rest3 =>
            match hexVal h1, hexVal h2, hexVal h3, hexVal h4 with
            | some a, some b, some c2, some d =>
              let n := ((a * 16 + b) * 16 + c2) * 16 + d
              if n < 55296 ∨ 57344 ≤ n then
                (readStrBody fuel rest3).map (fun p => (Char.ofNat n :: p.1, p.2))
              else none
            | _, _, _, _ => none
          | _ => none
        else none
    else (readStrBody fuel rest).map (fun p => (c :: p.1, p.2))

mutual

/-- Recursive-descent JSON value reader (fuel bounds the recursion). -/
def readVal : Nat → List Char → Option (Json × List Char)
  | 0, _ => none
  | fuel + 1, cs =>
    match skipWs cs with
    | [] => none
    | c :: rest =>
      if c = 'n' then
        match rest with
        | 'u' :: 'l' :: 'l' :: r => some (.null, r)
        | _ => none
      else if c = 't' then
        match rest with
        | 'r' :: 'u' :: 'e' :: r => some (.bool true, r)
        | _ => none
      else if c = 'f' then
        match rest with
        | 'a' :: 'l' :: 's' :: 'e' :: r => some (.bool false, r)
        | _ => none
      else if c = '"' then
        (readStrBody (rest.length + 1) rest).map (fun p => (.str (String.mk p.1), p.2))
      else if c = '-' then
        let sp := rest.span Char.isDigit
        if sp.1.isEmpty then none
        else some (.num (-(Int.ofNat (digitsToNat sp.1))), sp.2)
      else if c.isDigit then
        let sp := (c :: rest).span Char.isDigit
        some (.num (Int.ofNat (digitsToNat sp.1)), sp.2)
      else if c = '[' then
        match skipWs rest with
        | c2 :: r2 =>
          if c2 = ']' then some (.arr [], r2)
          else (readElems fuel rest).map (fun p => (.arr p.1, p.2))
        | [] => none
      else if c = obraceChar then
        match skipWs rest with
        | c2 :: r2 =>
          if c2 = cbraceChar then some (.obj [], r2)
          else (readFields fuel rest).map (fun p => (.obj p.1, p.2))
        | [] => none
      else none

/-- Reader for a non-empty comma-separated element list, consuming the
closing bracket. -/
def readElems : Nat → List Char → Option (List Json × List Char)
  | 0, _ => none
  | fuel + 1, cs =>
    match readVal fuel cs with
    | none => none
    | some (v, rest) =>
      match skipWs rest with
      | c :: r2 =>
        if c = ',' then (readElems fuel r2).map (fun p => (v :: p.1, p.2))
        else if c = ']' then some ([v], r2)
        else none
      | [] => none

/-- Reader for a non-empty comma-separated field list, consuming the
closing brace. -/
def readFields : Nat → List Char → Option (List (String × Json) × List Char)
  | 0, _ => none
  | fuel + 1, cs =>
    match skipWs cs with
    | [] => none
    | c :: rest =>
      if c = '"' then
        match readStrBody (rest.length + 1) rest with
        | none => none
        | some (key, r2) =>
          match skipWs r2 with
          | c2 :: r3 =>
            if c2 = ':' then
              match readVal fuel r3 with
              | none => none
              | some (v, r4) =>
                match skipWs r4 with
                | c3 :: r5 =>
                  if c3 = ',' then
                    (readFields fuel r5).map (fun p => ((String.mk key, v) :: p.1, p.2))
                  else if c3 = cbraceChar then some ([(String.mk key, v)], r5)
                  else none
                | [] => none
            else none
          | [] => none
      else none

end

/-- Model of JSON.parse: reads one value and requires only whitespace
to remain; any failure models the thrown SyntaxError. -/
def jsonParse (s : String) : Option Json :=
  match readVal (2 * s.length + 2) s.toList with
  | some (v, rest) => if (skipWs rest).isEmpty then some v else none
  | none => none

/-- Model of the keyed transform obtained from Node's
crypto.createCipher with the aes128 algorithm.  The AES implementation
is external to the repository; it is modelled here as an executable
injective keyed encoding of the character stream, and the inverse
property the real cipher provides is taken as an explicit hypothesis
where a theorem needs it. -/
def cipherAes128 (key : String) (s : String) : String :=
  String.intercalate "," (s.toList.map (fun c => toString (c.toNat + key.length)))

/-- Comma-separated grouping of a character stream. -/
def splitOnComma : List Char → List (List Char)
  | [] => [[]]
  | c :: rest =>
      if c = ',' then [] :: splitOnComma rest
      else
        match splitOnComma rest with
        | [] => [[c]]
        | g :: gs => (c :: g) :: gs

/-- Model of the matching crypto.createDecipher aes128 transform
(inverse of cipherAes128 on its image). -/
def decipherAes128 (key : String) (s : String) : String :=
  String.mk (((splitOnComma s.toList).filterMap (fun g =>
      if ¬ g.isEmpty ∧ g.all Char.isDigit then some (digitsToNat g) else none)).map
    (fun n => Char.ofNat (n - key.length)))

/-- encrypt(payload): serializes the payload to its JSON text (the
utf-8 buffer content) and, when an encryption key is configured,
applies the aes128 cipher keyed by it; with no key the plaintext JSON
is returned as is. -/
def encrypt (encryptionKey : Option String) (payload : Json) : String :=
  match encryptionKey with
  | none => jsonStringify payload
  | some k => cipherAes128 k (jsonStringify payload)

/-- decrypt(buf): with no key configured parses the buffer directly as
JSON; otherwise deciphers with the configured key first and parses the
result.  A parse failure models the thrown decode error. -/
def decrypt (encryptionKey : Option String) (buf : String) : Option Json :=
  match encryptionKey with
  | none => jsonParse buf
  | some k => jsonParse (decipherAes128 k buf)

/-- The eight kind names the typeof package can produce. -/
theorem typeOf_mem (v : JSValue) :
    typeOf v ∈ (["undefined", "null", "boolean", "number", "string", "array",
      "object", "function"] : List String) := by
  cases v <;> simp [typeOf]

/-- A message built by appending a typeof kind to a prefix differs from
a target string as soon as it differs for all eight kinds. -/
theorem append_typeOf_ne (pre : String) (v : JSValue) (t : String)
    (h : ∀ u ∈ (["undefined", "null", "boolean", "number", "string", "array",
      "object", "function"] : List String), ¬ pre ++ u = t) :
    ¬ pre ++ typeOf v = t :=
  h _ (typeOf_mem v)

/-- A concrete connected bus state used by witnesses. -/
def sampleConnected : BusState :=
  { url := "amqp://localhost"
  , encryptionKey := none
  , consumers := []
  , conn := some ()
  , incomingChannel := some ()
  , outgoingChannel := some ()
  , consumerTag := none }

/-- A result built from an error differs from a target error as soon as
the two errors differ. -/
theorem res_error_ne (a b : JSError) (s : BusState) (cs : List BrokerCall)
    (h : ¬ a = b) :
    ¬ (OpResult.mk (α := Unit) (.error a) s cs).res = .error b := by
  intro hh
  exact h (by injection hh)

/-- TypeErrors with different messages differ. -/
theorem typeError_ne_of_msg (m1 m2 : String) (h : ¬ m1 = m2) :
    ¬ JSError.typeError m1 = JSError.typeError m2 := by
  intro hh
  injection hh
  simp_all

/-- C5: publish and sendToQueue reject with the "Invalid message; must
be specified" TypeError exactly when the message argument is undefined
(after the preceding string-argument checks pass); an explicit null
message never triggers that error and is accepted as a valid body. -/
theorem message_required_iff_undefined :
    (∀ s ex rk msg props fid now ce, ¬ isUndefinedJS msg = true →
      ¬ (publish s ex rk msg props fid now ce).res
          = .error (.typeError "Invalid message; must be specified"))
  ∧ (∀ s ex rk props fid now ce, isStringJS ex = true → isStringJS rk = true →
      (publish s ex rk .undef props fid now ce).res
        = .error (.typeError "Invalid message; must be specified"))
  ∧ (∀ s fid now ce, s.conn = some () →
      (publish s (.str "e") (.str "r") .jsNull (.obj []) fid now ce).res = .ok ())
  ∧ (∀ s q msg props fid now ce, ¬ isUndefinedJS msg = true →
      ¬ (sendToQueue s q msg props fid now ce).res
          = .error (.typeError "Invalid message; must be specified"))
  ∧ (∀ s q props fid now ce, isStringJS q = true →
      (sendToQueue s q .undef props fid now ce).res
        = .error (.typeError "Invalid message; must be specified"))
  ∧ (∀ s fid now ce, s.conn = some () →
      (sendToQueue s (.str "q") .jsNull (.obj []) fid now ce).res = .ok ()) := by
  refine ⟨?_, ?_, ?_, ?_, ?_, ?_⟩
  · intro s ex rk msg props fid now ce hmsg
    unfold publish
    by_cases h1 : ¬ isStringJS ex = true
    · rw [if_pos h1]
      exact res_error_ne _ _ _ _ (typeError_ne_of_msg _ _ (append_typeOf_ne _ _ _ (by decide)))
    rw [if_neg h1]
    by_cases h2 : ¬ isStringJS rk = true
    · rw [if_pos h2]
      exact res_error_ne _ _ _ _ (typeError_ne_of_msg _ _ (append_typeOf_ne _ _ _ (by decide)))
    rw [if_neg h2]
    by_cases h3 : isUndefinedJS msg = true
    · exact absurd h3 hmsg
    rw [if_neg h3]
    by_cases h4 : ¬ isPlainObjectJS props = true
    · rw [if_pos h4]
      exact res_error_ne _ _ _ _ (typeError_ne_of_msg _ _ (append_typeOf_ne _ _ _ (by decide)))
    rw [if_neg h4]
    by_cases h5 : ¬ isIntegerJS (withDefault (getProp (fieldsOf props) "priority") (.num 1)) = true
    · rw [if_pos h5]
      exact res_error_ne _ _ _ _ (typeError_ne_of_msg _ _ (append_typeOf_ne _ _ _ (by decide)))
    rw [if_neg h5]
    by_cases h6 : ¬ inRange1to11 (intOf (withDefault (getProp (fieldsOf props) "priority") (.num 1))) = true
    · rw [if_pos h6]
      exact res_error_ne _ _ _ _ (typeError_ne_of_msg _ _ (by decide))
    rw [if_neg h6]
    by_cases h7 : ¬ isStringJS (withDefault (getProp (fieldsOf props) "messageId") (.str fid)) = true
    · rw [if_pos h7]
      exact res_error_ne _ _ _ _ (typeError_ne_of_msg _ _ (append_typeOf_ne _ _ _ (by decide)))
    rw [if_neg h7]
    by_cases h8 : ¬ (isStringJS (getProp (fieldsOf props) "type")
        || isUndefinedJS (getProp (fieldsOf props) "type")) = true
    · rw [if_pos h8]
      exact res_error_ne _ _ _ _ (typeError_ne_of_msg _ _ (append_typeOf_ne _ _ _ (by decide)))
    rw [if_neg h8]
    by_cases h9 : ¬ isIntegerJS (withDefault (getProp (fieldsOf props) "timestamp") (.num now)) = true
    · rw [if_pos h9]
      exact res_error_ne _ _ _ _ (typeError_ne_of_msg _ _ (append_typeOf_ne _ _ _ (by decide)))
    rw [if_neg h9]
    by_cases h10 : ¬ s.conn.isSome = true
    · rw [if_pos h10]
      exact res_error_ne _ _ _ _ (fun hh => JSError.noConfusion hh)
    rw [if_neg h10]
    intro hh
    exact Except.noConfusion hh
  · intro s ex rk props fid now ce hex hrk
    simp [publish, hex, hrk, isUndefinedJS]
  · intro s fid now ce hconn
    simp [publish, confirmCallback, isStringJS, isUndefinedJS, isPlainObjectJS,
      fieldsOf, getProp, withDefault, isIntegerJS, intOf, inRange1to11, hconn]
  · intro s q msg props fid now ce hmsg
    unfold sendToQueue
    by_cases h1 : ¬ isStringJS q = true
    · rw [if_pos h1]
      exact res_error_ne _ _ _ _ (typeError_ne_of_msg _ _ (append_typeOf_ne _ _ _ (by decide)))
    rw [if_neg h1]
    by_cases h2 : isUndefinedJS msg = true
    · exact absurd h2 hmsg
    rw [if_neg h2]
    by_cases h3 : ¬ isPlainObjectJS props = true
    · rw [if_pos h3]
      exact res_error_ne _ _ _ _ (typeError_ne_of_msg _ _ (append_typeOf_ne _ _ _ (by decide)))
    rw [if_neg h3]
    by_cases h4 : ¬ isIntegerJS (withDefault (getProp (fieldsOf props) "priority") (.num 1)) = true
    · rw [if_pos h4]
      exact res_error_ne _ _ _ _ (typeError_ne_of_msg _ _ (append_typeOf_ne _ _ _ (by decide)))
    rw [if_neg h4]
    by_cases h5 : ¬ inRange1to11 (intOf (withDefault (getProp (fieldsOf props) "priority") (.num 1))) = true
    · rw [if_pos h5]
      exact res_error_ne _ _ _ _ (typeError_ne_of_msg _ _ (by decide))
    rw [if_neg h5]
    by_cases h6 : ¬ isStringJS (withDefault (getProp (fieldsOf props) "messageId") (.str fid)) = true
    · rw [if_pos h6]
      exact res_error_ne _ _ _ _ (typeError_ne_of_msg _ _ (append_typeOf_ne _ _ _ (by decide)))
    rw [if_neg h6]
    by_cases h7 : ¬ (isStringJS (getProp (fieldsOf props) "type")
        || isUndefinedJS (getProp (fieldsOf props) "type")) = true
    · rw [if_pos h7]
      exact res_error_ne _ _ _ _ (typeError_ne_of_msg _ _ (append_typeOf_ne _ _ _ (by decide)))
    rw [if_neg h7]
    by_cases h8 : ¬ isIntegerJS (withDefault (getProp (fieldsOf props) "timestamp") (.num now)) = true
    · rw [if_pos h8]
      exact res_error_ne _ _ _ _ (typeError_ne_of_msg _ _ (append_typeOf_ne _ _ _ (by decide)))
    rw [if_neg h8]
    by_cases h9 : ¬ s.conn.isSome = true
    · rw [if_pos h9]
      exact res_error_ne _ _ _ _ (fun hh => JSError.noConfusion hh)
    rw [if_neg h9]
    intro hh
    exact Except.noConfusion hh
  · intro s q props fid now ce hq
    simp [sendToQueue, hq, isUndefinedJS]
  · intro s fid now ce hconn
    simp [sendToQueue, confirmCallback, isStringJS, isUndefinedJS, isPlainObjectJS,
      fieldsOf, getProp, withDefault, isIntegerJS, intOf, inRange1to11, hconn]

/-- Witness for C5: on a concrete connected bus, an undefined message is
rejected with the message-required error while an explicit null message
resolves successfully. -/
theorem message_required_iff_undefined_witness :
    ((publish sampleConnected (.str "e") (.str "r") .undef (.obj []) "id" 0 none).res
      = .error (.typeError "Invalid message; must be specified"))
  ∧ ((publish sampleConnected (.str "e") (.str "r") .jsNull (.obj []) "id" 0 none).res = .ok ())
  ∧ (¬ (sendToQueue sampleConnected (.str "q") (.num 3) (.obj []) "id" 0 none).res
      = .error (.typeError "Invalid message; must be specified")) :=
  ⟨message_required_iff_undefined.2.1 sampleConnected _ _ _ "id" 0 none rfl rfl,
   message_required_iff_undefined.2.2.1 sampleConnected "id" 0 none rfl,
   message_required_iff_undefined.2.2.2.1 sampleConnected _ _ _ "id" 0 none (by decide)⟩

/-- Combined priority admissibility test: integer and inside [1,10]. -/
def validPriority (v : JSValue) : Bool :=
  isIntegerJS v && inRange1to11 (intOf v)

/-- withDefault is the identity on non-undefined values. -/
theorem withDefault_of_not_undef (v d : JSValue) (h : isUndefinedJS v = false) :
    withDefault v d = v := by
  cases v <;> simp_all [isUndefinedJS, withDefault]

/-- C6: a publish or sendToQueue call whose props carry a priority that
is not an integer in [1,10] fails with a validation TypeError, issuing
no broker call and leaving the state unchanged; and when a successful
call omitted priority, the envelope it submitted carried priority 1. -/
theorem priority_validation_and_default :
    (∀ s ex rk msg fs fid now ce,
      isUndefinedJS (getProp fs "priority") = false →
      validPriority (getProp fs "priority") = false →
      ∃ m, (publish s ex rk msg (.obj fs) fid now ce).res = .error (.typeError m)
        ∧ (publish s ex rk msg (.obj fs) fid now ce).calls = []
        ∧ (publish s ex rk msg (.obj fs) fid now ce).state = s)
  ∧ (∀ s q msg fs fid now ce,
      isUndefinedJS (getProp fs "priority") = false →
      validPriority (getProp fs "priority") = false →
      ∃ m, (sendToQueue s q msg (.obj fs) fid now ce).res = .error (.typeError m)
        ∧ (sendToQueue s q msg (.obj fs) fid now ce).calls = []
        ∧ (sendToQueue s q msg (.obj fs) fid now ce).state = s)
  ∧ (∀ s ex rk msg fs fid now ce,
      (publish s ex rk msg (.obj fs) fid now ce).res = .ok () →
      getProp fs "priority" = .undef →
      ∃ e r mid ty ts, (publish s ex rk msg (.obj fs) fid now ce).calls
        = [.publishCall e r msg mid ty 1 ts])
  ∧ (∀ s q msg fs fid now ce,
      (sendToQueue s q msg (.obj fs) fid now ce).res = .ok () →
      getProp fs "priority" = .undef →
      ∃ qn mid ty ts, (sendToQueue s q msg (.obj fs) fid now ce).calls
        = [.sendToQueueCall qn msg mid ty 1 ts]) := by
  refine ⟨?_, ?_, ?_, ?_⟩
  · intro s ex rk msg fs fid now ce hdef hbad
    unfold publish
    by_cases h1 : ¬ isStringJS ex = true
    · rw [if_pos h1]; exact ⟨_, rfl, rfl, rfl⟩
    rw [if_neg h1]
    by_cases h2 : ¬ isStringJS rk = true
    · rw [if_pos h2]; exact ⟨_, rfl, rfl, rfl⟩
    rw [if_neg h2]
    by_cases h3 : isUndefinedJS msg = true
    · rw [if_pos h3]; exact ⟨_, rfl, rfl, rfl⟩
    rw [if_neg h3]
    rw [if_neg (show ¬ ¬ isPlainObjectJS (.obj fs) = true by simp [isPlainObjectJS])]
    rw [show fieldsOf (JSValue.obj fs) = fs from rfl,
      withDefault_of_not_undef _ _ hdef]
    by_cases h5 : ¬ isIntegerJS (getProp fs "priority") = true
    · rw [if_pos h5]; exact ⟨_, rfl, rfl, rfl⟩
    rw [if_neg h5]
    rw [if_pos ?hrange]
    case hrange =>
      simp only [validPriority, Bool.and_eq_false_iff] at hbad
      rcases hbad with hb | hb
      · exact absurd (by simpa using h5) (by simp [hb])
      · simp [hb]
    exact ⟨_, rfl, rfl, rfl⟩
  · intro s q msg fs fid now ce hdef hbad
    unfold sendToQueue
    by_cases h1 : ¬ isStringJS q = true
    · rw [if_pos h1]; exact ⟨_, rfl, rfl, rfl⟩
    rw [if_neg h1]
    by_cases h2 : isUndefinedJS msg = true
    · rw [if_pos h2]; exact ⟨_, rfl, rfl, rfl⟩
    rw [if_neg h2]
    rw [if_neg (show ¬ ¬ isPlainObjectJS (.obj fs) = true by simp [isPlainObjectJS])]
    rw [show fieldsOf (JSValue.obj fs) = fs from rfl,
      withDefault_of_not_undef _ _ hdef]
    by_cases h4 : ¬ isIntegerJS (getProp fs "priority") = true
    · rw [if_pos h4]; exact ⟨_, rfl, rfl, rfl⟩
    rw [if_neg h4]
    rw [if_pos ?hrange]
    case hrange =>
      simp only [validPriority, Bool.and_eq_false_iff] at hbad
      rcases hbad with hb | hb
      · exact absurd (by simpa using h4) (by simp [hb])
      · simp [hb]
    exact ⟨_, rfl, rfl, rfl⟩
  · intro s ex rk msg fs fid now ce hres hp
    unfold publish at hres ⊢
    by_cases h1 : ¬ isStringJS ex = true
    · rw [if_pos h1] at hres; exact Except.noConfusion hres
    rw [if_neg h1] at hres ⊢
    by_cases h2 : ¬ isStringJS rk = true
    · rw [if_pos h2] at hres; exact Except.noConfusion hres
    rw [if_neg h2] at hres ⊢
    by_cases h3 : isUndefinedJS msg = true
    · rw [if_pos h3] at hres; exact Except.noConfusion hres
    rw [if_neg h3] at hres ⊢
    rw [if_neg (show ¬ ¬ isPlainObjectJS (.obj fs) = true by simp [isPlainObjectJS])] at hres ⊢
    rw [show fieldsOf (JSValue.obj fs) = fs from rfl, hp] at hres ⊢
    by_cases h5 : ¬ isIntegerJS (withDefault .undef (.num 1)) = true
    · rw [if_pos h5] at hres; exact Except.noConfusion hres
    rw [if_neg h5] at hres ⊢
    by_cases h6 : ¬ inRange1to11 (intOf (withDefault .undef (.num 1))) = true
    · rw [if_pos h6] at hres; exact Except.noConfusion hres
    rw [if_neg h6] at hres ⊢
    by_cases h7 : ¬ isStringJS (withDefault (getProp fs "messageId") (.str fid)) = true
    · rw [if_pos h7] at hres; exact Except.noConfusion hres
    rw [if_neg h7] at hres ⊢
    by_cases h8 : ¬ (isStringJS (getProp fs "type") || isUndefinedJS (getProp fs "type")) = true
    · rw [if_pos h8] at hres; exact Except.noConfusion hres
    rw [if_neg h8] at hres ⊢
    by_cases h9 : ¬ isIntegerJS (withDefault (getProp fs "timestamp") (.num now)) = true
    · rw [if_pos h9] at hres; exact Except.noConfusion hres
    rw [if_neg h9] at hres ⊢
    by_cases h10 : ¬ s.conn.isSome = true
    · rw [if_pos h10] at hres; exact Except.noConfusion hres
    rw [if_neg h10]
    exact ⟨_, _, _, _, _, rfl⟩
  · intro s q msg fs fid now ce hres hp
    unfold sendToQueue at hres ⊢
    by_cases h1 : ¬ isStringJS q = true
    · rw [if_pos h1] at hres; exact Except.noConfusion hres
    rw [if_neg h1] at hres ⊢
    by_cases h2 : isUndefinedJS msg = true
    · rw [if_pos h2] at hres; exact Except.noConfusion hres
    rw [if_neg h2] at hres ⊢
    rw [if_neg (show ¬ ¬ isPlainObjectJS (.obj fs) = true by simp [isPlainObjectJS])] at hres ⊢
    rw [show fieldsOf (JSValue.obj fs) = fs from rfl, hp] at hres ⊢
    by_cases h4 : ¬ isIntegerJS (withDefault .undef (.num 1)) = true
    · rw [if_pos h4] at hres; exact Except.noConfusion hres
    rw [if_neg h4] at hres ⊢
    by_cases h5 : ¬ inRange1to11 (intOf (withDefault .undef (.num 1))) = true
    · rw [if_pos h5] at hres; exact Except.noConfusion hres
    rw [if_neg h5] at hres ⊢
    by_cases h6 : ¬ isStringJS (withDefault (getProp fs "messageId") (.str fid)) = true
    · rw [if_pos h6] at hres; exact Except.noConfusion hres
    rw [if_neg h6] at hres ⊢
    by_cases h7 : ¬ (isStringJS (getProp fs "type") || isUndefinedJS (getProp fs "type")) = true
    · rw [if_pos h7] at hres; exact Except.noConfusion hres
    rw [if_neg h7] at hres ⊢
    by_cases h8 : ¬ isIntegerJS (withDefault (getProp fs "timestamp") (.num now)) = true
    · rw [if_pos h8] at hres; exact Except.noConfusion hres
    rw [if_neg h8] at hres ⊢
    by_cases h9 : ¬ s.conn.isSome = true
    · rw [if_pos h9] at hres; exact Except.noConfusion hres
    rw [if_neg h9]
    exact ⟨_, _, _, _, rfl⟩

/-- Witness for C6: priority 0 is rejected with a TypeError and no
broker call on a concrete connected bus, and a call with empty props
succeeds carrying priority 1 in its envelope. -/
theorem priority_validation_and_default_witness :
    (∃ m, (publish sampleConnected (.str "e") (.str "r") (.num 7)
        (.obj [("priority", .num 0)]) "id" 0 none).res = .error (.typeError m)
      ∧ (publish sampleConnected (.str "e") (.str "r") (.num 7)
        (.obj [("priority", .num 0)]) "id" 0 none).calls = []
      ∧ (publish sampleConnected (.str "e") (.str "r") (.num 7)
        (.obj [("priority", .num 0)]) "id" 0 none).state = sampleConnected)
  ∧ (∃ qn mid ty ts, (sendToQueue sampleConnected (.str "q") (.num 7)
        (.obj []) "id" 3 none).calls = [.sendToQueueCall qn (.num 7) mid ty 1 ts]) :=
  ⟨priority_validation_and_default.1 sampleConnected _ _ _ _ "id" 0 none rfl rfl,
   priority_validation_and_default.2.2.2 sampleConnected _ _ _ "id" 3 none rfl rfl⟩

/-- Counterexample to C4: on a concrete connected bus, a publish and a
sendToQueue whose broker confirm outcome is a rejection still resolve
successfully — the rejection is not propagated to the caller. -/
theorem confirm_rejection_not_propagated_counterexample :
    (publish sampleConnected (.str "e") (.str "r") (.num 1) (.obj []) "id" 0
      (some .brokerError)).res = .ok ()
  ∧ (sendToQueue sampleConnected (.str "q") (.num 1) (.obj []) "id" 0
      (some .brokerError)).res = .ok () :=
  ⟨rfl, rfl⟩

/-- C4 (amended): the result of publish / sendToQueue settles via the
confirm callback invoked by the broker on the publish submitted through
the confirm channel (a successful call issues exactly that one broker
call), but the callback ignores the broker's error argument: the call
resolves identically whatever the confirm outcome, so a broker-level
rejection is never surfaced as a failure. -/
theorem confirm_resolves_regardless_of_outcome :
    (∀ outcome, confirmCallback outcome = .resolvedUndefined)
  ∧ (∀ s ex rk msg props fid now ce ce2,
      publish s ex rk msg props fid now ce = publish s ex rk msg props fid now ce2)
  ∧ (∀ s q msg props fid now ce ce2,
      sendToQueue s q msg props fid now ce = sendToQueue s q msg props fid now ce2)
  ∧ (∀ s ex rk msg props fid now ce,
      (publish s ex rk msg props fid now ce).res = .ok () →
      ∃ e r mid ty p ts,
        (publish s ex rk msg props fid now ce).calls = [.publishCall e r msg mid ty p ts])
  ∧ (∀ s q msg props fid now ce,
      (sendToQueue s q msg props fid now ce).res = .ok () →
      ∃ qn mid ty p ts,
        (sendToQueue s q msg props fid now ce).calls = [.sendToQueueCall qn msg mid ty p ts]) := by
  refine ⟨fun outcome => rfl, fun _ _ _ _ _ _ _ _ _ => rfl, fun _ _ _ _ _ _ _ _ => rfl, ?_, ?_⟩
  · intro s ex rk msg props fid now ce hres
    unfold publish at hres ⊢
    by_cases h1 : ¬ isStringJS ex = true
    · rw [if_pos h1] at hres; exact Except.noConfusion hres
    rw [if_neg h1] at hres ⊢
    by_cases h2 : ¬ isStringJS rk = true
    · rw [if_pos h2] at hres; exact Except.noConfusion hres
    rw [if_neg h2] at hres ⊢
    by_cases h3 : isUndefinedJS msg = true
    · rw [if_pos h3] at hres; exact Except.noConfusion hres
    rw [if_neg h3] at hres ⊢
    by_cases h4 : ¬ isPlainObjectJS props = true
    · rw [if_pos h4] at hres; exact Except.noConfusion hres
    rw [if_neg h4] at hres ⊢
    by_cases h5 : ¬ isIntegerJS (withDefault (getProp (fieldsOf props) "priority") (.num 1)) = true
    · rw [if_pos h5] at hres; exact Except.noConfusion hres
    rw [if_neg h5] at hres ⊢
    by_cases h6 : ¬ inRange1to11 (intOf (withDefault (getProp (fieldsOf props) "priority") (.num 1))) = true
    · rw [if_pos h6] at hres; exact Except.noConfusion hres
    rw [if_neg h6] at hres ⊢
    by_cases h7 : ¬ isStringJS (withDefault (getProp (fieldsOf props) "messageId") (.str fid)) = true
    · rw [if_pos h7] at hres; exact Except.noConfusion hres
    rw [if_neg h7] at hres ⊢
    by_cases h8 : ¬ (isStringJS (getProp (fieldsOf props) "type")
        || isUndefinedJS (getProp (fieldsOf props) "type")) = true
    · rw [if_pos h8] at hres; exact Except.noConfusion hres
    rw [if_neg h8] at hres ⊢
    by_cases h9 : ¬ isIntegerJS (withDefault (getProp (fieldsOf props) "timestamp") (.num now)) = true
    · rw [if_pos h9] at hres; exact Except.noConfusion hres
    rw [if_neg h9] at hres ⊢
    by_cases h10 : ¬ s.conn.isSome = true
    · rw [if_pos h10] at hres; exact Except.noConfusion hres
    rw [if_neg h10]
    exact ⟨_, _, _, _, _, _, rfl⟩
  · intro s q msg props fid now ce hres
    unfold sendToQueue at hres ⊢
    by_cases h1 : ¬ isStringJS q = true
    · rw [if_pos h1] at hres; exact Except.noConfusion hres
    rw [if_neg h1] at hres ⊢
    by_cases h2 : isUndefinedJS msg = true
    · rw [if_pos h2] at hres; exact Except.noConfusion hres
    rw [if_neg h2] at hres ⊢
    by_cases h3 : ¬ isPlainObjectJS props = true
    · rw [if_pos h3] at hres; exact Except.noConfusion hres
    rw [if_neg h3] at hres ⊢
    by_cases h4 : ¬ isIntegerJS (withDefault (getProp (fieldsOf props) "priority") (.num 1)) = true
    · rw [if_pos h4] at hres; exact Except.noConfusion hres
    rw [if_neg h4] at hres ⊢
    by_cases h5 : ¬ inRange1to11 (intOf (withDefault (getProp (fieldsOf props) "priority") (.num 1))) = true
    · rw [if_pos h5] at hres; exact Except.noConfusion hres
    rw [if_neg h5] at hres ⊢
    by_cases h6 : ¬ isStringJS (withDefault (getProp (fieldsOf props) "messageId") (.str fid)) = true
    · rw [if_pos h6] at hres; exact Except.noConfusion hres
    rw [if_neg h6] at hres ⊢
    by_cases h7 : ¬ (isStringJS (getProp (fieldsOf props) "type")
        || isUndefinedJS (getProp (fieldsOf props) "type")) = true
    · rw [if_pos h7] at hres; exact Except.noConfusion hres
    rw [if_neg h7] at hres ⊢
    by_cases h8 : ¬ isIntegerJS (withDefault (getProp (fieldsOf props) "timestamp") (.num now)) = true
    · rw [if_pos h8] at hres; exact Except.noConfusion hres
    rw [if_neg h8] at hres ⊢
    by_cases h9 : ¬ s.conn.isSome = true
    · rw [if_pos h9] at hres; exact Except.noConfusion hres
    rw [if_neg h9]
    exact ⟨_, _, _, _, _, rfl⟩

/-- Witness for C4 (amended): a concrete successful publish issued
exactly one confirm-channel submission. -/
theorem confirm_resolves_regardless_of_outcome_witness :
    ∃ e r mid ty p ts,
      (publish sampleConnected (.str "e") (.str "r") (.num 1) (.obj []) "id" 0
        none).calls = [.publishCall e r (.num 1) mid ty p ts] :=
  confirm_resolves_regardless_of_outcome.2.2.2.1 sampleConnected _ _ _ _ "id" 0 none rfl

/-- Counterexample to C1: on a concrete connected bus, a subscribe whose
broker-level consume request fails still records the identifier→queue
mapping in the registry (the try/finally adds it on both paths), while
the error propagates. -/
theorem subscribe_failure_records_counterexample :
    (subscribe sampleConnected (.str "q") .func "tag-1" false).res = .error .brokerError
  ∧ (subscribe sampleConnected (.str "q") .func "tag-1" false).state.consumers
      = [("tag-1", "q")] :=
  ⟨rfl, rfl⟩

/-- C1 (amended): for a connected subscribe with valid arguments, the
identifier→queue mapping is added to the registry when the consume
attempt completes, whether or not the broker accepted it; on success
the call resolves to the unsubscribe handle and on failure the broker
error propagates to the caller with the identifier still recorded. -/
theorem subscribe_registry_after_consume :
    ∀ s queue listener tag ok,
      isStringJS queue = true → isFunctionJS listener = true →
      s.conn.isSome = true → truthyTag s.consumerTag = false →
      ((subscribe s queue listener tag ok).state.consumers
          = mapSet s.consumers tag (stringOf queue))
      ∧ (subscribe s queue listener tag ok).calls = [.consumeCall (stringOf queue) tag]
      ∧ (ok = true → (subscribe s queue listener tag ok).res = .ok tag)
      ∧ (ok = false → (subscribe s queue listener tag ok).res = .error .brokerError) := by
  intro s queue listener tag ok hq hl hconn hct
  unfold subscribe
  rw [if_neg (show ¬ ¬ isStringJS queue = true by simp [hq])]
  rw [if_neg (show ¬ ¬ isFunctionJS listener = true by simp [hl])]
  rw [if_neg (show ¬ ¬ s.conn.isSome = true by simp [hconn])]
  rw [if_neg (show ¬ truthyTag s.consumerTag = true by simp [hct])]
  cases ok
  · rw [if_neg (by simp)]
    exact ⟨rfl, rfl, fun h => Bool.noConfusion h, fun _ => rfl⟩
  · rw [if_pos rfl]
    exact ⟨rfl, rfl, fun _ => rfl, fun h => Bool.noConfusion h⟩

/-- Witness for C1 (amended): concrete successful and failing consume
attempts both leave the fresh tag recorded. -/
theorem subscribe_registry_after_consume_witness :
    ((subscribe sampleConnected (.str "q") .func "t1" true).state.consumers
        = mapSet sampleConnected.consumers "t1" "q")
  ∧ ((subscribe sampleConnected (.str "q") .func "t1" true).res = .ok "t1")
  ∧ ((subscribe sampleConnected (.str "q") .func "t2" false).state.consumers
        = mapSet sampleConnected.consumers "t2" "q") :=
  ⟨(subscribe_registry_after_consume sampleConnected (.str "q") .func "t1" true rfl rfl rfl rfl).1,
   (subscribe_registry_after_consume sampleConnected (.str "q") .func "t1" true rfl rfl rfl rfl).2.2.1 rfl,
   (subscribe_registry_after_consume sampleConnected (.str "q") .func "t2" false rfl rfl rfl rfl).1⟩

/-- Counterexample to C9: subscribing with an empty-string queue name on
a concrete connected bus passes validation and reaches the broker-level
consume request (the code only checks lodash isString, not
non-emptiness). -/
theorem subscribe_empty_queue_counterexample :
    (subscribe sampleConnected (.str "") .func "t1" true).res = .ok "t1"
  ∧ (subscribe sampleConnected (.str "") .func "t1" true).calls
      = [.consumeCall "" "t1"] :=
  ⟨rfl, rfl⟩

/-- C9 (amended): subscribe fails with a validation TypeError when the
queue is not a string (an empty string is accepted), then when the
listener is not callable, and fails with the "not connected" Error when
no connection is open — each check happening before any broker
interaction and leaving the state unchanged. -/
theorem subscribe_validation_order :
    (∀ s q l tag ok, ¬ isStringJS q = true →
      (subscribe s q l tag ok).res
          = .error (.typeError ("Invalid queue; expected string, received " ++ typeOf q))
        ∧ (subscribe s q l tag ok).calls = []
        ∧ (subscribe s q l tag ok).state = s)
  ∧ (∀ s q l tag ok, isStringJS q = true → ¬ isFunctionJS l = true →
      (subscribe s q l tag ok).res
          = .error (.typeError ("Invalid listener; expected function, received " ++ typeOf l))
        ∧ (subscribe s q l tag ok).calls = []
        ∧ (subscribe s q l tag ok).state = s)
  ∧ (∀ s q l tag ok, isStringJS q = true → isFunctionJS l = true → s.conn = none →
      (subscribe s q l tag ok).res
          = .error (.jsError "Cannot subscribe to queue; did you forget to call #connect()")
        ∧ (subscribe s q l tag ok).calls = []
        ∧ (subscribe s q l tag ok).state = s) := by
  refine ⟨?_, ?_, ?_⟩
  · intro s q l tag ok hq
    unfold subscribe
    rw [if_pos hq]
    exact ⟨rfl, rfl, rfl⟩
  · intro s q l tag ok hq hl
    unfold subscribe
    rw [if_neg (show ¬ ¬ isStringJS q = true by simp [hq]), if_pos hl]
    exact ⟨rfl, rfl, rfl⟩
  · intro s q l tag ok hq hl hconn
    unfold subscribe
    rw [if_neg (show ¬ ¬ isStringJS q = true by simp [hq])]
    rw [if_neg (show ¬ ¬ isFunctionJS l = true by simp [hl])]
    rw [if_pos (show ¬ s.conn.isSome = true by simp [hconn])]
    exact ⟨rfl, rfl, rfl⟩

/-- Witness for C9 (amended): concrete invalid-queue, invalid-listener
and disconnected subscribe calls each fail before broker interaction. -/
theorem subscribe_validation_order_witness :
    ((subscribe sampleConnected (.num 3) .func "t" true).res
        = .error (.typeError "Invalid queue; expected string, received number"))
  ∧ ((subscribe sampleConnected (.str "q") .jsNull "t" true).res
        = .error (.typeError "Invalid listener; expected function, received null"))
  ∧ ((subscribe { sampleConnected with conn := none } (.str "q") .func "t" true).res
        = .error (.jsError "Cannot subscribe to queue; did you forget to call #connect()")) :=
  ⟨(subscribe_validation_order.1 sampleConnected (.num 3) .func "t" true (by decide)).1,
   (subscribe_validation_order.2.1 sampleConnected (.str "q") .jsNull "t" true rfl (by decide)).1,
   (subscribe_validation_order.2.2 { sampleConnected with conn := none } (.str "q") .func "t" true
      rfl rfl rfl).1⟩

/-- Every registration surviving a fully successful drain was already
registered and its tag is not among the drained tags. -/
theorem drainAll_ok_mem (tags : List String) : ∀ (s : BusState) (c : String → Bool),
    (drainAll s tags c).1 = true →
    ∀ p ∈ (drainAll s tags c).2.1.consumers, p ∈ s.consumers ∧ ¬ p.1 ∈ tags := by
  induction tags with
  | nil =>
    intro s c _ p hp
    simp only [drainAll] at hp
    exact ⟨hp, by simp⟩
  | cons t rest ih =>
    intro s c h p hp
    simp only [drainAll] at h hp
    by_cases hhas : mapHas s.consumers t = true
    · by_cases hc : c t = true
      · have hr : unsubscribe s (.str t) c
            = ⟨.ok (), { s with consumers := mapDelete s.consumers t }, [.cancelCall t]⟩ := by
          unfold unsubscribe
          rw [if_neg (by simp [isStringJS]),
            if_neg (by simp [stringOf, hhas]),
            if_pos (show c (stringOf (.str t)) = true by simpa [stringOf] using hc)]
          rfl
        rw [hr] at h hp
        simp only [Bool.and_eq_true] at h
        obtain ⟨hmem, hnot⟩ := ih _ c h.2 p hp
        simp only [mapDelete, List.mem_filter, decide_eq_true_eq] at hmem
        exact ⟨hmem.1, by simp [hmem.2, hnot]⟩
      · have hr : unsubscribe s (.str t) c = ⟨.error .brokerError, s, [.cancelCall t]⟩ := by
          unfold unsubscribe
          rw [if_neg (by simp [isStringJS]),
            if_neg (by simp [stringOf, hhas]),
            if_neg (show ¬ c (stringOf (.str t)) = true by simpa [stringOf] using hc)]
          rfl
        rw [hr] at h
        simp at h
    · have hr : unsubscribe s (.str t) c
          = ⟨.error (.jsError ("Unknown consumer tag " ++ stringOf (.str t))), s, []⟩ := by
        unfold unsubscribe
        rw [if_neg (by simp [isStringJS]),
          if_pos (show ¬ mapHas s.consumers (stringOf (.str t)) = true by
            simpa [stringOf] using hhas)]
      rw [hr] at h
      simp at h

/-- A fully successful drain issues exactly one broker cancel per tag,
in order. -/
theorem drainAll_ok_calls (tags : List String) : ∀ (s : BusState) (c : String → Bool),
    (drainAll s tags c).1 = true →
    (drainAll s tags c).2.2 = tags.map BrokerCall.cancelCall := by
  induction tags with
  | nil =>
    intro s c _
    simp [drainAll]
  | cons t rest ih =>
    intro s c h
    simp only [drainAll] at h ⊢
    by_cases hhas : mapHas s.consumers t = true
    · by_cases hc : c t = true
      · have hr : unsubscribe s (.str t) c
            = ⟨.ok (), { s with consumers := mapDelete s.consumers t }, [.cancelCall t]⟩ := by
          unfold unsubscribe
          rw [if_neg (by simp [isStringJS]),
            if_neg (by simp [stringOf, hhas]),
            if_pos (show c (stringOf (.str t)) = true by simpa [stringOf] using hc)]
          rfl
        rw [hr] at h ⊢
        simp only [Bool.and_eq_true] at h
        simp [ih _ c h.2]
      · have hr : unsubscribe s (.str t) c = ⟨.error .brokerError, s, [.cancelCall t]⟩ := by
          unfold unsubscribe
          rw [if_neg (by simp [isStringJS]),
            if_neg (by simp [stringOf, hhas]),
            if_neg (show ¬ c (stringOf (.str t)) = true by simpa [stringOf] using hc)]
          rfl
        rw [hr] at h
        simp at h
    · have hr : unsubscribe s (.str t) c
          = ⟨.error (.jsError ("Unknown consumer tag " ++ stringOf (.str t))), s, []⟩ := by
        unfold unsubscribe
        rw [if_neg (by simp [isStringJS]),
          if_pos (show ¬ mapHas s.consumers (stringOf (.str t)) = true by
            simpa [stringOf] using hhas)]
      rw [hr] at h
      simp at h

/-- Draining all current registry keys successfully empties the registry. -/
theorem drainAll_keys_ok_nil (s : BusState) (c : String → Bool)
    (h : (drainAll s (s.consumers.map Prod.fst) c).1 = true) :
    (drainAll s (s.consumers.map Prod.fst) c).2.1.consumers = [] := by
  rw [List.eq_nil_iff_forall_not_mem]
  intro p hp
  obtain ⟨hmem, hnot⟩ := drainAll_ok_mem _ s c h p hp
  exact hnot (List.mem_map_of_mem Prod.fst hmem)

/-- The state of a freshly constructed bus for url "u". -/
def s0u : BusState :=
  { url := "u"
  , encryptionKey := none
  , consumers := []
  , conn := none
  , incomingChannel := none
  , outgoingChannel := none
  , consumerTag := none }

/-- A bus caught inside the reconnect window: the close handler cleared
the connection handle but neither the channel handles nor the registry. -/
def sStale : BusState :=
  { url := "u"
  , encryptionKey := none
  , consumers := [("t1", "q")]
  , conn := none
  , incomingChannel := some ()
  , outgoingChannel := some ()
  , consumerTag := none }

/-- The stale state arises from construct, a successful connect, a
successful subscribe and the reconnect clearing step. -/
theorem sStale_reachable : Reachable sStale :=
  Reachable.step
    (Reachable.step
      (Reachable.step (Reachable.init (.obj [("url", .str "u")]) s0u rfl)
        (Step.connectStep s0u ⟨true, true, true, true⟩))
      (Step.subscribeStep _ (.str "q") .func "t1" true))
    (Step.reconnectStep _ rfl)

/-- Counterexample to C7: in the reachable reconnect-window state the
registry still holds a registration and the channel handles are stale,
yet disconnect() is a successful no-op, so after it completes the
registry is not empty and the channel handles are not null. -/
theorem disconnect_stale_registry_counterexample :
    Reachable sStale
  ∧ (disconnect sStale (fun _ => true) true).res = .ok ()
  ∧ ¬ (disconnect sStale (fun _ => true) true).state.consumers = []
  ∧ ¬ (disconnect sStale (fun _ => true) true).state.incomingChannel = none :=
  ⟨sStale_reachable, rfl, by decide, by decide⟩

/-- C7 (amended): disconnect() is an idempotent no-op when no connection
handle is present (leaving the state, including any stale registry
entries left by the reconnect path, untouched); when a disconnect from
a connected state completes successfully, the connection and channel
handles are null and the registry is empty, every registered consumer
having been cancelled before the single closing call. -/
theorem disconnect_idempotent_and_resets :
    (∀ s c ok, s.conn = none →
      (disconnect s c ok).res = .ok () ∧ (disconnect s c ok).state = s
        ∧ (disconnect s c ok).calls = [])
  ∧ (∀ s c ok, ¬ s.conn = none → (disconnect s c ok).res = .ok () →
      (disconnect s c ok).state.conn = none
      ∧ (disconnect s c ok).state.incomingChannel = none
      ∧ (disconnect s c ok).state.outgoingChannel = none
      ∧ (disconnect s c ok).state.consumers = []
      ∧ (disconnect s c ok).calls
          = (s.consumers.map Prod.fst).map BrokerCall.cancelCall ++ [.closeConn]) := by
  constructor
  · intro s c ok h
    unfold disconnect
    rw [if_pos (show s.conn.isNone = true by simp [h])]
    exact ⟨rfl, rfl, rfl⟩
  · intro s c ok hconn hres
    unfold disconnect at hres ⊢
    rw [if_neg (show ¬ s.conn.isNone = true by simp [Option.isNone_iff_eq_none, hconn])]
      at hres ⊢
    by_cases hd : ¬ (drainAll s (s.consumers.map Prod.fst) c).1 = true
    · rw [if_pos hd] at hres; exact Except.noConfusion hres
    rw [if_neg hd] at hres ⊢
    by_cases hk : ¬ ok = true
    · rw [if_pos hk] at hres; exact Except.noConfusion hres
    rw [if_neg hk]
    simp only [not_not] at hd
    refine ⟨rfl, rfl, rfl, drainAll_keys_ok_nil s c hd, ?_⟩
    rw [drainAll_ok_calls _ s c hd]

/-- Witness for C7 (amended): a concrete connected bus with one
registration disconnects to an all-null, empty-registry state after one
cancel and one close, and a second disconnect is a no-op. -/
theorem disconnect_idempotent_and_resets_witness :
    ((disconnect { sampleConnected with consumers := [("t1", "q")] } (fun _ => true) true).state.consumers = [])
  ∧ ((disconnect { sampleConnected with consumers := [("t1", "q")] } (fun _ => true) true).calls
      = [.cancelCall "t1", .closeConn])
  ∧ ((disconnect s0u (fun _ => true) true).res = .ok ()
      ∧ (disconnect s0u (fun _ => true) true).state = s0u) :=
  ⟨(disconnect_idempotent_and_resets.2 { sampleConnected with consumers := [("t1", "q")] }
      (fun _ => true) true (by decide) rfl).2.2.2.1,
   (disconnect_idempotent_and_resets.2 { sampleConnected with consumers := [("t1", "q")] }
      (fun _ => true) true (by decide) rfl).2.2.2.2,
   ⟨(disconnect_idempotent_and_resets.1 s0u (fun _ => true) true rfl).1,
    (disconnect_idempotent_and_resets.1 s0u (fun _ => true) true rfl).2.1⟩⟩

/-- C8: a successful deleteQueue(queue) leaves no registration for that
queue in the registry, and its broker calls are exactly the cancels of
the registrations bound to that queue followed by the queue delete. -/
theorem deleteQueue_drains_queue_first :
    ∀ s q opts c delOk,
      (deleteQueue s (.str q) opts c delOk).res = .ok () →
      (∀ p ∈ (deleteQueue s (.str q) opts c delOk).state.consumers, ¬ p.2 = q)
      ∧ (deleteQueue s (.str q) opts c delOk).calls
          = ((s.consumers.filter (fun p => p.2 = q)).map Prod.fst).map BrokerCall.cancelCall
            ++ [.deleteQueueCall q] := by
  intro s q opts c delOk hres
  unfold deleteQueue at hres ⊢
  rw [if_neg (show ¬ ¬ isStringJS (.str q) = true by simp [isStringJS])] at hres ⊢
  by_cases h2 : ¬ isPlainObjectJS opts = true
  · rw [if_pos h2] at hres; exact Except.noConfusion hres
  rw [if_neg h2] at hres ⊢
  by_cases h3 : ¬ s.conn.isSome = true
  · rw [if_pos h3] at hres; exact Except.noConfusion hres
  rw [if_neg h3] at hres ⊢
  by_cases hd : ¬ (drainAll s ((s.consumers.filter
      (fun p => p.2 = stringOf (.str q))).map Prod.fst) c).1 = true
  · rw [if_pos hd] at hres; exact Except.noConfusion hres
  rw [if_neg hd] at hres ⊢
  by_cases hk : delOk = true
  · rw [if_pos hk]
    simp only [not_not] at hd
    constructor
    · intro p hp hpq
      obtain ⟨hmem, hnot⟩ := drainAll_ok_mem _ s c hd p hp
      exact hnot (List.mem_map_of_mem Prod.fst
        (List.mem_filter.mpr ⟨hmem, by simp [stringOf, hpq]⟩))
    · rw [drainAll_ok_calls _ s c hd]
      simp [stringOf]
  · rw [if_neg hk] at hres; exact Except.noConfusion hres

/-- Witness for C8: deleting queue "q" on a bus with registrations for
"q" and "r" cancels exactly the "q" consumers first, then deletes, and
leaves only the "r" registration. -/
theorem deleteQueue_drains_queue_first_witness :
    ((deleteQueue { sampleConnected with consumers := [("t1", "q"), ("t2", "r")] }
        (.str "q") (.obj []) (fun _ => true) true).calls
      = [.cancelCall "t1", .deleteQueueCall "q"])
  ∧ (∀ p ∈ (deleteQueue { sampleConnected with consumers := [("t1", "q"), ("t2", "r")] }
        (.str "q") (.obj []) (fun _ => true) true).state.consumers, ¬ p.2 = "q") :=
  ⟨(deleteQueue_drains_queue_first { sampleConnected with consumers := [("t1", "q"), ("t2", "r")] }
      "q" (.obj []) (fun _ => true) true rfl).2,
   (deleteQueue_drains_queue_first { sampleConnected with consumers := [("t1", "q"), ("t2", "r")] }
      "q" (.obj []) (fun _ => true) true rfl).1⟩

/-- publish never mutates the bus state. -/
theorem publish_state_eq (s : BusState) (ex rk msg props : JSValue) (fid : String)
    (now : Int) (ce : Option JSError) : (publish s ex rk msg props fid now ce).state = s := by
  unfold publish
  by_cases h1 : ¬ isStringJS ex = true
  · rw [if_pos h1]
  rw [if_neg h1]
  by_cases h2 : ¬ isStringJS rk = true
  · rw [if_pos h2]
  rw [if_neg h2]
  by_cases h3 : isUndefinedJS msg = true
  · rw [if_pos h3]
  rw [if_neg h3]
  by_cases h4 : ¬ isPlainObjectJS props = true
  · rw [if_pos h4]
  rw [if_neg h4]
  by_cases h5 : ¬ isIntegerJS (withDefault (getProp (fieldsOf props) "priority") (.num 1)) = true
  · rw [if_pos h5]
  rw [if_neg h5]
  by_cases h6 : ¬ inRange1to11 (intOf (withDefault (getProp (fieldsOf props) "priority") (.num 1))) = true
  · rw [if_pos h6]
  rw [if_neg h6]
  by_cases h7 : ¬ isStringJS (withDefault (getProp (fieldsOf props) "messageId") (.str fid)) = true
  · rw [if_pos h7]
  rw [if_neg h7]
  by_cases h8 : ¬ (isStringJS (getProp (fieldsOf props) "type")
      || isUndefinedJS (getProp (fieldsOf props) "type")) = true
  · rw [if_pos h8]
  rw [if_neg h8]
  by_cases h9 : ¬ isIntegerJS (withDefault (getProp (fieldsOf props) "timestamp") (.num now)) = true
  · rw [if_pos h9]
  rw [if_neg h9]
  by_cases h10 : ¬ s.conn.isSome = true
  · rw [if_pos h10]
  rw [if_neg h10]
  rfl

/-- sendToQueue never mutates the bus state. -/
theorem sendToQueue_state_eq (s : BusState) (q msg props : JSValue) (fid : String)
    (now : Int) (ce : Option JSError) : (sendToQueue s q msg props fid now ce).state = s := by
  unfold sendToQueue
  by_cases h1 : ¬ isStringJS q = true
  · rw [if_pos h1]
  rw [if_neg h1]
  by_cases h2 : isUndefinedJS msg = true
  · rw [if_pos h2]
  rw [if_neg h2]
  by_cases h3 : ¬ isPlainObjectJS props = true
  · rw [if_pos h3]
  rw [if_neg h3]
  by_cases h4 : ¬ isIntegerJS (withDefault (getProp (fieldsOf props) "priority") (.num 1)) = true
  · rw [if_pos h4]
  rw [if_neg h4]
  by_cases h5 : ¬ inRange1to11 (intOf (withDefault (getProp (fieldsOf props) "priority") (.num 1))) = true
  · rw [if_pos h5]
  rw [if_neg h5]
  by_cases h6 : ¬ isStringJS (withDefault (getProp (fieldsOf props) "messageId") (.str fid)) = true
  · rw [if_pos h6]
  rw [if_neg h6]
  by_cases h7 : ¬ (isStringJS (getProp (fieldsOf props) "type")
      || isUndefinedJS (getProp (fieldsOf props) "type")) = true
  · rw [if_pos h7]
  rw [if_neg h7]
  by_cases h8 : ¬ isIntegerJS (withDefault (getProp (fieldsOf props) "timestamp") (.num now)) = true
  · rw [if_pos h8]
  rw [if_neg h8]
  by_cases h9 : ¬ s.conn.isSome = true
  · rw [if_pos h9]
  rw [if_neg h9]
  rfl

/-- unsubscribe never writes the consumerTag field. -/
theorem unsubscribe_consumerTag_eq (s : BusState) (t : JSValue) (c : String → Bool) :
    (unsubscribe s t c).state.consumerTag = s.consumerTag := by
  unfold unsubscribe
  split_ifs <;> rfl

/-- A drain never writes the consumerTag field. -/
theorem drainAll_consumerTag_eq (tags : List String) : ∀ (s : BusState) (c : String → Bool),
    (drainAll s tags c).2.1.consumerTag = s.consumerTag := by
  induction tags with
  | nil => intro s c; rfl
  | cons t rest ih =>
    intro s c
    simp only [drainAll]
    rw [ih, unsubscribe_consumerTag_eq]

/-- connect never writes the consumerTag field. -/
theorem connect_consumerTag_eq (s : BusState) (o : ConnOracle) :
    (connect s o).state.consumerTag = s.consumerTag := by
  unfold connect
  split_ifs <;> rfl

/-- disconnect never writes the consumerTag field. -/
theorem disconnect_consumerTag_eq (s : BusState) (c : String → Bool) (ok : Bool) :
    (disconnect s c ok).state.consumerTag = s.consumerTag := by
  unfold disconnect
  split_ifs <;> simp [drainAll_consumerTag_eq]

/-- subscribe never writes the consumerTag field. -/
theorem subscribe_consumerTag_eq (s : BusState) (q l : JSValue) (tag : String) (ok : Bool) :
    (subscribe s q l tag ok).state.consumerTag = s.consumerTag := by
  unfold subscribe
  split_ifs <;> rfl

/-- deleteQueue never writes the consumerTag field. -/
theorem deleteQueue_consumerTag_eq (s : BusState) (q o : JSValue) (c : String → Bool)
    (ok : Bool) : (deleteQueue s q o c ok).state.consumerTag = s.consumerTag := by
  unfold deleteQueue
  split_ifs <;> simp [drainAll_consumerTag_eq]

/-- The constructor leaves the consumerTag field undefined. -/
theorem construct_consumerTag_none (props : JSValue) (s : BusState)
    (h : construct props = .ok s) : s.consumerTag = none := by
  unfold construct at h
  split at h
  · exact Except.noConfusion h
  split at h
  · exact Except.noConfusion h
  split at h
  · exact Except.noConfusion h
  cases h
  rfl

/-- No operation of the class ever assigns the consumerTag field, so it
stays undefined in every reachable state. -/
theorem reachable_consumerTag_none : ∀ s, Reachable s → s.consumerTag = none := by
  intro s h
  induction h with
  | init props s h => exact construct_consumerTag_none props s h
  | step hr hs ih =>
    cases hs with
    | connectStep o => rw [connect_consumerTag_eq]; exact ih
    | disconnectStep c ok => rw [disconnect_consumerTag_eq]; exact ih
    | subscribeStep q l tag ok => rw [subscribe_consumerTag_eq]; exact ih
    | unsubscribeStep t c => rw [unsubscribe_consumerTag_eq]; exact ih
    | deleteQueueStep q o c ok => rw [deleteQueue_consumerTag_eq]; exact ih
    | publishStep e r m p fid now ce => rw [publish_state_eq]; exact ih
    | sendToQueueStep q m p fid now ce => rw [sendToQueue_state_eq]; exact ih
    | reconnectStep h => exact ih

/-- C10: in every reachable state the consumerTag field read by the
"Subscription already active" guard is still undefined — no operation
of the class assigns it — so no subscribe call, whatever its arguments,
broker outcome or concurrently active subscriptions, ever fails with
that condition. -/
theorem subscribe_already_active_unreachable :
    ∀ s, Reachable s →
      s.consumerTag = none
      ∧ ∀ q l tag ok, ¬ (subscribe s q l tag ok).res = .error (.jsError
          "Subscription already active; cannot open multiple subscriptions to the same message bus") := by
  intro s h
  have hct := reachable_consumerTag_none s h
  refine ⟨hct, ?_⟩
  intro q l tag ok
  unfold subscribe
  by_cases h1 : ¬ isStringJS q = true
  · rw [if_pos h1]
    intro hh
    injection hh with hh
    exact JSError.noConfusion hh
  rw [if_neg h1]
  by_cases h2 : ¬ isFunctionJS l = true
  · rw [if_pos h2]
    intro hh
    injection hh with hh
    exact JSError.noConfusion hh
  rw [if_neg h2]
  by_cases h3 : ¬ s.conn.isSome = true
  · rw [if_pos h3]
    intro hh
    injection hh with hh
    injection hh with hh
    exact absurd hh (by decide)
  rw [if_neg h3]
  rw [if_neg (show ¬ truthyTag s.consumerTag = true by simp [hct, truthyTag])]
  by_cases h4 : ok = true
  · rw [if_pos h4]
    intro hh
    exact Except.noConfusion hh
  · rw [if_neg h4]
    intro hh
    injection hh with hh
    exact JSError.noConfusion hh

/-- Witness for C10: on the concrete reachable state reached by
construct then a successful connect, subscribe succeeds and in
particular never reports an already-active subscription. -/
theorem subscribe_already_active_unreachable_witness :
    ((connect s0u ⟨true, true, true, true⟩).state.consumerTag = none)
  ∧ (¬ (subscribe (connect s0u ⟨true, true, true, true⟩).state (.str "q") .func "t" true).res
      = .error (.jsError
        "Subscription already active; cannot open multiple subscriptions to the same message bus")) :=
  ⟨(subscribe_already_active_unreachable _
      (Reachable.step (Reachable.init (.obj [("url", .str "u")]) s0u rfl)
        (Step.connectStep s0u ⟨true, true, true, true⟩))).1,
   (subscribe_already_active_unreachable _
      (Reachable.step (Reachable.init (.obj [("url", .str "u")]) s0u rfl)
        (Step.connectStep s0u ⟨true, true, true, true⟩))).2 (.str "q") .func "t" true⟩

/-- Counterexample to C2: the reconnect path clears only the connection
handle, so the reachable state it produces has a null connection with
both channel handles still non-null — the claimed iff invariant fails
there. -/
theorem channels_iff_conn_counterexample :
    Reachable sStale
  ∧ sStale.conn = none
  ∧ ¬ sStale.incomingChannel = none
  ∧ ¬ sStale.outgoingChannel = none :=
  ⟨sStale_reachable, rfl, by decide, by decide⟩

/-- C2 (amended): the channels-non-null-iff-connection-non-null
invariant holds after the constructor and is preserved by successful
connect() and disconnect() completions, but the reconnect path clears
only the connection handle and leaves both channel handles exactly as
they were, so the invariant is broken at the boundary where the
reconnect loop has cleared the handles of a previously connected bus. -/
theorem channels_iff_conn_at_boundaries :
    (∀ props s, construct props = .ok s →
      s.incomingChannel.isSome = s.conn.isSome ∧ s.outgoingChannel.isSome = s.conn.isSome)
  ∧ (∀ s o, s.incomingChannel.isSome = s.conn.isSome →
      s.outgoingChannel.isSome = s.conn.isSome →
      (connect s o).res = .ok () →
      (connect s o).state.incomingChannel.isSome = (connect s o).state.conn.isSome
        ∧ (connect s o).state.outgoingChannel.isSome = (connect s o).state.conn.isSome)
  ∧ (∀ s c ok, s.incomingChannel.isSome = s.conn.isSome →
      s.outgoingChannel.isSome = s.conn.isSome →
      (disconnect s c ok).res = .ok () →
      (disconnect s c ok).state.incomingChannel.isSome = (disconnect s c ok).state.conn.isSome
        ∧ (disconnect s c ok).state.outgoingChannel.isSome
            = (disconnect s c ok).state.conn.isSome)
  ∧ (∀ s, (reconnectClear s).conn = none
      ∧ (reconnectClear s).incomingChannel = s.incomingChannel
      ∧ (reconnectClear s).outgoingChannel = s.outgoingChannel) := by
  refine ⟨?_, ?_, ?_, fun s => ⟨rfl, rfl, rfl⟩⟩
  · intro props s h
    unfold construct at h
    split at h
    · exact Except.noConfusion h
    split at h
    · exact Except.noConfusion h
    split at h
    · exact Except.noConfusion h
    cases h
    exact ⟨rfl, rfl⟩
  · intro s o hin hout hres
    unfold connect at hres ⊢
    by_cases h1 : s.conn.isSome = true
    · rw [if_pos h1] at hres ⊢
      exact ⟨hin, hout⟩
    rw [if_neg h1] at hres ⊢
    by_cases h2 : ¬ o.connectOk = true
    · rw [if_pos h2] at hres; exact Except.noConfusion hres
    rw [if_neg h2] at hres ⊢
    by_cases h3 : ¬ o.channelOk = true
    · rw [if_pos h3] at hres; exact Except.noConfusion hres
    rw [if_neg h3] at hres ⊢
    by_cases h4 : ¬ o.confirmChannelOk = true
    · rw [if_pos h4] at hres; exact Except.noConfusion hres
    rw [if_neg h4] at hres ⊢
    by_cases h5 : ¬ o.prefetchOk = true
    · rw [if_pos h5] at hres; exact Except.noConfusion hres
    rw [if_neg h5]
    exact ⟨rfl, rfl⟩
  · intro s c ok hin hout hres
    unfold disconnect at hres ⊢
    by_cases h1 : s.conn.isNone = true
    · rw [if_pos h1] at hres ⊢
      exact ⟨hin, hout⟩
    rw [if_neg h1] at hres ⊢
    by_cases h2 : ¬ (drainAll s (s.consumers.map Prod.fst) c).1 = true
    · rw [if_pos h2] at hres; exact Except.noConfusion hres
    rw [if_neg h2] at hres ⊢
    by_cases h3 : ¬ ok = true
    · rw [if_pos h3] at hres; exact Except.noConfusion hres
    rw [if_neg h3]
    exact ⟨rfl, rfl⟩

/-- Witness for C2 (amended): the invariant holds concretely after
construct, a successful connect and a successful disconnect, and the
reconnect clearing step on the connected sample keeps its channel
handles. -/
theorem channels_iff_conn_at_boundaries_witness :
    (s0u.incomingChannel.isSome = s0u.conn.isSome)
  ∧ ((connect s0u ⟨true, true, true, true⟩).state.incomingChannel.isSome
      = (connect s0u ⟨true, true, true, true⟩).state.conn.isSome)
  ∧ ((disconnect sampleConnected (fun _ => true) true).state.incomingChannel.isSome
      = (disconnect sampleConnected (fun _ => true) true).state.conn.isSome)
  ∧ ((reconnectClear sampleConnected).incomingChannel
      = sampleConnected.incomingChannel) :=
  ⟨(channels_iff_conn_at_boundaries.1 (.obj [("url", .str "u")]) s0u rfl).1,
   (channels_iff_conn_at_boundaries.2.1 s0u ⟨true, true, true, true⟩ rfl rfl rfl).1,
   (channels_iff_conn_at_boundaries.2.2.1 sampleConnected (fun _ => true) true rfl rfl rfl).1,
   (channels_iff_conn_at_boundaries.2.2.2 sampleConnected).2.1⟩

/-- C3: decrypt inverts encrypt on the same bus configuration, for
every payload and every configured key including none.  The two
platform-library contracts the code relies on — JSON.parse inverting
JSON.stringify on the payload and the aes128 decipher inverting the
cipher on its serialization — enter as explicit pointwise hypotheses
(both are discharged by computation on the executable models in the
witness); the theorem shows the class's key-branching composition
preserves them. -/
theorem decrypt_encrypt_roundtrip :
    ∀ (key : Option String) (m : Json),
      jsonParse (jsonStringify m) = some m →
      (∀ k, key = some k →
        decipherAes128 k (cipherAes128 k (jsonStringify m)) = jsonStringify m) →
      decrypt key (encrypt key m) = some m := by
  intro key m hjson hciph
  cases key with
  | none => exact hjson
  | some k =>
    show jsonParse (decipherAes128 k (cipherAes128 k (jsonStringify m))) = some m
    rw [hciph k rfl]
    exact hjson

/-- A sample payload exercising every Json constructor. -/
def mSample : Json :=
  .obj [("a", .num 1),
        ("b", .arr [.str "x\"y z", .null, .bool true, .num (-5)]),
        ("c", .obj [])]

/-- Witness for C3: the round trip holds by computation on a concrete
payload both without a key and with key "secret". -/
theorem decrypt_encrypt_roundtrip_witness :
    decrypt none (encrypt none mSample) = some mSample
  ∧ decrypt (some "secret") (encrypt (some "secret") mSample) = some mSample :=
  ⟨decrypt_encrypt_roundtrip none mSample (by rfl) (fun k hk => Option.noConfusion hk),
   decrypt_encrypt_roundtrip (some "secret") mSample (by rfl)
     (fun k hk => by cases hk; rfl)⟩

end AmqpBus
